import Mathlib

/-!
# Verification of the frame-naming engine (`src/frameName.cpp`)

A shallow embedding of the frame-name formatting engine of this repository.
C strings are modelled as `List Char` (the NUL terminator is the end of the
list; an embedded `Char.ofNat 0` is also a terminator, as in C).  The
session's reusable scratch buffer `_buf` is modelled by the string value a
call produces; writes that the source performs with no capacity bound
(`appendStr`, `strcat`, `strncat(out, &cq, 1)`) are modelled as plain
concatenation, exactly because the source imposes no bound (see the
capacity analysis below).  External collaborators (the JVMTI metadata
facility, the platform demangler, the thread-name table) are parameters.
-/

namespace FrameName

/-- The style bitmask of `arguments.h` (`STYLE_SIMPLE`, `STYLE_DOTTED`,
`STYLE_SIGNATURES`, `STYLE_ANNOTATE`), modelled as four flags. -/
structure Style where
  simple : Bool
  dotted : Bool
  signatures : Bool
  annotate : Bool
deriving DecidableEq, Repr

/-- Style with no flag set (the literal `0` passed by `appendMethodName`). -/
def zeroStyle : Style := ⟨false, false, false, false⟩

/-- `STYLE_DOTTED` alone. -/
def dottedStyle : Style := ⟨false, true, false, false⟩

/-- `STYLE_SIMPLE` alone. -/
def simpleStyle : Style := ⟨true, false, false, false⟩

/-- `STYLE_SIGNATURES | STYLE_DOTTED`: the style used by the spec's
signature-decoding examples. -/
def sigDottedStyle : Style := ⟨false, true, true, false⟩

/-- The NUL character, C's string terminator. -/
def nulChar : Char := Char.ofNat 0

/-- `FrameName::processJvmName` (frameName.cpp, lines 156-193).  Walks
`signature` from position `s_pos` until a terminator (`NULL` or `';'`),
escaping `, \ ( )` with a backslash, handling `/` according to `style`,
and copying every other character verbatim.  Here `sig` is the suffix of
the C string starting at `s_pos`, and `acc` is the list of characters this
call has emitted so far (the source tracks the same quantity as the pointer
difference `out - initial_out`).  The result is `(emitted, remaining)` with
`remaining` starting at the terminator (the source returns the advanced
`out` and leaves `s_pos` on the terminator).

The `STYLE_SIMPLE` branch of the source executes
`memset(initial_out, NULL, initial_out - out)`.  Since `out ≥ initial_out`
always holds, the length argument `initial_out - out` is `0` when nothing
has been emitted yet (a no-op, and the `/` is skipped) and *negative*
otherwise; a negative `ptrdiff_t` converted to `size_t` makes `memset`
clear on the order of `2^64` bytes, an out-of-bounds write (undefined
behavior).  The model returns `none` for that case. -/
def processJvmName (style : Style) : List Char → List Char → Option (List Char × List Char)
  | [], acc => some (acc, [])
  | c :: rest, acc =>
    if c = nulChar ∨ c = ';' then some (acc, c :: rest)
    else if c = ',' then processJvmName style rest (acc ++ ['\\', ','])
    else if c = '\\' then processJvmName style rest (acc ++ ['\\', '\\'])
    else if c = '(' then processJvmName style rest (acc ++ ['\\', '('])
    else if c = ')' then processJvmName style rest (acc ++ ['\\', ')'])
    else if c = '/' then
      if style.simple then
        if acc = [] then processJvmName style rest acc
        else none
      else if style.dotted then processJvmName style rest (acc ++ ['.'])
      else processJvmName style rest (acc ++ ['/'])
    else processJvmName style rest (acc ++ [c])

/-- `primitiveType` (frameName.cpp, lines 195-209): the fixed keyword table
for JVM primitive type codes; every unrecognized code yields the fixed
placeholder `"WTF!"`. -/
def primitiveType (c : Char) : String :=
  if c = 'B' then "byte"
  else if c = 'C' then "char"
  else if c = 'D' then "double"
  else if c = 'F' then "float"
  else if c = 'I' then "int"
  else if c = 'J' then "long"
  else if c = 'S' then "short"
  else if c = 'V' then "void"
  else if c = 'Z' then "boolean"
  else "WTF!"

/-- `"[]"` repeated `n` times: the output of the
`for (;arrayDim > 0; arrayDim--) out = appendStr(out, "[]");` loop. -/
def dims : Nat → List Char
  | 0 => []
  | n + 1 => '[' :: ']' :: dims n

theorem processJvmName_remaining_length (style : Style) :
    ∀ (sig acc : List Char) (r : List Char × List Char),
      processJvmName style sig acc = some r → r.2.length ≤ sig.length := by
  intro sig
  induction sig with
  | nil =>
    intro acc r h
    simp only [processJvmName, Option.some.injEq] at h
    subst h
    simp
  | cons c rest ih =>
    intro acc r h
    simp only [processJvmName] at h
    split_ifs at h
    all_goals first
      | (cases h; simp)
      | exact Nat.le_succ_of_le (ih _ _ h)

/-- The loop of `FrameName::appendDemangledJvmSignature` (frameName.cpp,
lines 212-253).  `sig` is the remaining descriptor text (the suffix at
`s_pos`), `arrayDim` the pending array-dimension counter, `inArgs` the
`in_args` flag, `acc` the output written so far.  Cases mirror the
source's `switch`: end of string returns; `'['` bumps `arrayDim` and
continues; `'('` emits `"("` and sets `in_args`; `')'` emits `") "` and
clears it; `'L'` advances past the marker and decodes the embedded name
via `processJvmName` (which stops on the `';'` delimiter, consumed
afterwards by `s_pos++` — here `List.drop 1` — but not emitted); any
other character is looked up in `primitiveType`.  After a primitive or
object token the source appends `"[]"` per pending dimension, resets the
counter, advances, and emits `", "` when `in_args` holds and the next
character is not `')'` (past the end of the text the source would read the
NUL terminator, modelled by the default `nulChar`). -/
def appendSig (style : Style) : List Char → Nat → Bool → List Char → Option (List Char)
  | [], _, _, acc => some acc
  | c :: rest, arrayDim, inArgs, acc =>
    if c = nulChar then some acc
    else if c = '[' then appendSig style rest (arrayDim + 1) inArgs acc
    else if c = '(' then appendSig style rest arrayDim true (acc ++ ['('])
    else if c = ')' then appendSig style rest arrayDim false (acc ++ [')', ' '])
    else if c = 'L' then
      match h : processJvmName style rest acc with
      | none => none
      | some (acc1, rem1) =>
        let rem2 := rem1.drop 1
        let acc2 := acc1 ++ dims arrayDim
        let acc3 := if inArgs && !(rem2.headD nulChar = ')') then acc2 ++ [',', ' '] else acc2
        appendSig style rem2 0 inArgs acc3
    else
      let acc2 := (acc ++ (primitiveType c).data) ++ dims arrayDim
      let acc3 := if inArgs && !(rest.headD nulChar = ')') then acc2 ++ [',', ' '] else acc2
      appendSig style rest 0 inArgs acc3
termination_by sig _ _ _ => sig.length
decreasing_by
  all_goals simp_wf
  all_goals try omega
  · have hlen : rem1.length ≤ rest.length :=
      processJvmName_remaining_length style rest acc (acc1, rem1) h
    have h2 : (List.drop 1 rem1).length = rem1.length - 1 := List.length_drop 1 rem1
    omega

/-- `FrameName::appendDemangledJvmSignature` at the `String` level: the
source first advances `out` past the existing content
(`out = out + strlen(out)`) and then appends the decoded descriptor, so the
model concatenates onto `out`.  A `NULL` descriptor appends nothing; the
model takes the descriptor as a `String`, always present.  `none`
propagates the undefined behavior of the `STYLE_SIMPLE` discard branch. -/
def appendDemangledJvmSignature (out : String) (signature : String) (style : Style) :
    Option String :=
  (appendSig style signature.data 0 false []).map fun s => out ++ String.mk s

/-- `FrameName::javaClassName` (frameName.cpp, lines 87-94): clears the
scratch buffer (`result[0] = '\0'`) and decodes `symbol` into it.  The
source's `length` parameter is ignored by its body, so the model omits
it. -/
def javaClassName (symbol : String) (style : Style) : Option String :=
  appendDemangledJvmSignature "" symbol style

/-- `FrameName::appendMethodName` (frameName.cpp, lines 255-258): copies a
method name through `processJvmName` with the literal style `0` — no
`SIMPLE`, no `DOTTED` — regardless of the session's configured style. -/
def appendMethodName (out : String) (nm : String) : Option String :=
  (processJvmName zeroStyle nm.data []).map fun r => out ++ String.mk r.1

/-- The triple returned by the JVMTI metadata queries in
`FrameName::javaMethodName`: `GetMethodName` yields the method's name and
signature, `GetMethodDeclaringClass` + `GetClassSignature` the declaring
class's descriptor (e.g. `"Ljava/lang/Object;"`). -/
structure MethodInfo where
  methodName : String
  methodSig : String
  classSig : String

/-- The JVMTI metadata facility, external to this subsystem: for a method
identifier it produces a `MethodInfo` or fails with a numeric
`jvmtiError` code. -/
def Jvmti : Type := Nat → Except Nat MethodInfo

/-- `FrameName::javaMethodName` (frameName.cpp, lines 54-85).  On any
query failure it formats `"[jvmtiError <code>]"` into the scratch buffer.
On success it composes, in the scratch buffer: the decoded declaring-class
name, `"."`, the method name via `appendMethodName` (style `0`), then the
decoded signature when `STYLE_SIGNATURES` is set, then `"_[j]"` when
`STYLE_ANNOTATE` is set.  Both paths return a pointer into `_buf`; `none`
propagates the `STYLE_SIMPLE` undefined behavior. -/
def javaMethodName (jvmti : Jvmti) (style : Style) (method : Nat) : Option String :=
  match jvmti method with
  | .error err => some ("[jvmtiError " ++ toString err ++ "]")
  | .ok info => do
      let cls ← javaClassName info.classSig style
      let r1 ← appendMethodName (cls ++ ".") info.methodName
      let r2 ← if style.signatures then
                 appendDemangledJvmSignature r1 info.methodSig style
               else pure r1
      pure (if style.annotate then r2 ++ "_[j]" else r2)

/-- Which storage the `const char*` returned by `FrameName::name` refers
to: a static string literal, the session's scratch buffer `_buf`, or the
`std::string` stored inside the `NameCache` entry. -/
inductive Origin where
  | literal
  | scratch
  | cached
deriving DecidableEq, Repr

/-- The `JMethodCache` (`std::map<jmethodID, std::string>`), modelled as an
association list; `insert` prepends, and lookup finds the entry if any. -/
def cacheLookup (cache : List (Nat × String)) (method : Nat) : Option String :=
  (cache.find? fun e => e.1 = method).map fun e => e.2

/-- Result of one naming call on a regular method frame: the returned text,
the storage it lives in, the number of JVMTI metadata queries the call
issued (0 or 1), and the cache as left by the call. -/
structure NameResult where
  output : String
  origin : Origin
  queries : Nat
  cache : List (Nat × String)
deriving Repr

/-- The `default:` branch of `FrameName::name` (frameName.cpp, lines
134-143): look the identifier up in the cache; on a hit return the cached
`std::string`'s contents with no metadata query; on a miss call
`javaMethodName` (one metadata query) and insert the result into the cache
*unconditionally* — the source's `_cache.insert(it, ...)` runs on the
error path too — then return `newName`, which aliases the scratch buffer
`_buf`, not the cache's copy. -/
def nameRegular (jvmti : Jvmti) (style : Style) (cache : List (Nat × String))
    (method : Nat) : Option NameResult :=
  match cacheLookup cache method with
  | some s => some ⟨s, .cached, 0, cache⟩
  | none =>
      (javaMethodName jvmti style method).map fun s =>
        ⟨s, .scratch, 1, (method, s) :: cache⟩

/-- `FrameName::cppDemangle` (frameName.cpp, lines 41-52): if the symbol
carries the `"_Z"` mangling marker, invoke the platform demangler
(`abi::__cxa_demangle`, an external facility, modelled as a parameter);
on success copy the demangled text into `_buf` with
`strncpy(_buf, demangled, sizeof(_buf) - 1)`, which truncates to the
buffer capacity `cap` minus one; otherwise return the input unchanged. -/
def cppDemangle (demangler : String → Option String) (cap : Nat) (nm : String) : String :=
  if nm.startsWith "_Z" then
    match demangler nm with
    | some d => String.mk (d.data.take (cap - 1))
    | none => nm
  else nm

/-- One captured `ASGCT_CallFrame`, as the dispatcher `FrameName::name`
interprets it.  The source stores an untyped `method_id` pointer
reinterpreted according to `bci`; the model carries each interpretation
directly: `unknown` is `method_id == NULL` (checked before the `switch`),
`nativeFrame` is `BCI_NATIVE_FRAME` (the pointer is a native symbol name),
`symbolFrame` is `BCI_SYMBOL` (a `VMSymbol`, carried as its body text),
`symbolOutsideTlab` is `BCI_SYMBOL_OUTSIDE_TLAB` (the source clears the
low tag bit with `^ 1` before dereferencing — a pointer-level step with no
`List Char` counterpart), `threadFrame` is `BCI_THREAD_ID` (the pointer's
value is the thread id), `errorFrame` is `BCI_ERROR` (a diagnostic
string), and `methodFrame` is the `default:` case (a `jmethodID`). -/
inductive CallFrame where
  | unknown
  | nativeFrame (sym : String)
  | symbolFrame (body : String)
  | symbolOutsideTlab (body : String)
  | threadFrame (tid : Int)
  | errorFrame (msg : String)
  | methodFrame (method : Nat)

/-- `FrameName::name` (frameName.cpp, lines 96-145), the dispatcher.
`threads` is the external `ThreadMap` read under the external lock
(modelled as a plain lookup: the lock guards a single map access);
`demangler`/`cap` parametrize `cppDemangle`.  Returns the formatted text,
the cache as left by the call, and the number of metadata queries issued.
The two symbol cases force `STYLE_DOTTED` on (`_style | STYLE_DOTTED`) for
the class name and choose the suffix by testing the *original* style's
`STYLE_DOTTED` bit.  The thread case formats through `snprintf`, the error
case formats `"[<text>]"`. -/
def name (jvmti : Jvmti) (demangler : String → Option String) (cap : Nat)
    (style : Style) (threads : Int → Option String)
    (cache : List (Nat × String)) : CallFrame → Option (String × List (Nat × String) × Nat)
  | .unknown => some ("[unknown]", cache, 0)
  | .nativeFrame sym => some (cppDemangle demangler cap sym, cache, 0)
  | .symbolFrame body =>
      (javaClassName body { style with dotted := true }).map fun cn =>
        (cn ++ (if style.dotted then "" else "_[i]"), cache, 0)
  | .symbolOutsideTlab body =>
      (javaClassName body { style with dotted := true }).map fun cn =>
        (cn ++ (if style.dotted then " (out)" else "_[k]"), cache, 0)
  | .threadFrame tid =>
      match threads tid with
      | some nm => some ("[" ++ nm ++ " tid=" ++ toString tid ++ "]", cache, 0)
      | none => some ("[tid=" ++ toString tid ++ "]", cache, 0)
  | .errorFrame msg => some ("[" ++ msg ++ "]", cache, 0)
  | .methodFrame method =>
      (nameRegular jvmti style cache method).map fun r => (r.output, r.cache, r.queries)

/-- The per-character emission rule of the Escaping Formatter as the spec
states it: `,` `\` `(` `)` are emitted preceded by a backslash, `/` is
emitted as `.` under `DOTTED` and verbatim otherwise, and every other
character is emitted verbatim.  Used to characterize `processJvmName`. -/
def escChar (dotted : Bool) (c : Char) : List Char :=
  if c = ',' then ['\\', ',']
  else if c = '\\' then ['\\', '\\']
  else if c = '(' then ['\\', '(']
  else if c = ')' then ['\\', ')']
  else if c = '/' then (if dotted then ['.'] else ['/'])
  else [c]

/-- The Escaping Formatter's whole-name behavior as the spec states it:
apply `escChar` to every character before the terminator (`NUL` or `';'`),
and also return the remaining text starting at the terminator. -/
def escapeSpec (dotted : Bool) : List Char → List Char × List Char
  | [] => ([], [])
  | c :: rest =>
    if c = nulChar || c = ';' then ([], c :: rest)
    else (escChar dotted c ++ (escapeSpec dotted rest).1, (escapeSpec dotted rest).2)

theorem processJvmName_eq_escapeSpec (st : Style) (hs : st.simple = false) :
    ∀ (sig acc : List Char),
      processJvmName st sig acc =
        some (acc ++ (escapeSpec st.dotted sig).1, (escapeSpec st.dotted sig).2) := by
  intro sig
  induction sig with
  | nil => intro acc; simp [processJvmName, escapeSpec]
  | cons c rest ih =>
    intro acc
    by_cases hterm : c = nulChar ∨ c = ';'
    · have hb : (c = nulChar || c = ';') = true := by
        rcases hterm with h | h <;> simp [h]
      simp [processJvmName, escapeSpec, hterm, hb]
    · have hb : (c = nulChar || c = ';') = false := by
        push_neg at hterm
        simp [hterm.1, hterm.2]
      simp only [processJvmName, escapeSpec, if_neg hterm, hb, Bool.false_eq_true, if_false]
      simp only [escChar, hs]
      split_ifs <;> first
        | exact False.elim (by assumption)
        | simp [ih, List.append_assoc]

theorem appendSig_replicate_int (n : Nat) (acc : List Char) :
    appendSig zeroStyle (List.replicate n 'I') 0 false acc
      = some (acc ++ (List.replicate n (['i', 'n', 't'] : List Char)).flatten) := by
  induction n generalizing acc with
  | zero => simp [appendSig]
  | succ n ih =>
    rw [List.replicate_succ]
    simp [appendSig, primitiveType, dims, nulChar, ih, List.append_assoc,
      List.replicate_succ]

theorem flatten_replicate_length (n : Nat) :
    ((List.replicate n (['i', 'n', 't'] : List Char)).flatten).length = 3 * n := by
  induction n with
  | zero => simp
  | succ n ih => simp [List.replicate_succ, ih, Nat.mul_succ]

theorem processJvmName_object (st : Style) :
    processJvmName st "Object;".data [] = some ("Object".data, [';']) := by
  simp [processJvmName, nulChar, String.data]

/-- A metadata facility that always fails with `jvmtiError` code 5. -/
def failJvmti5 : Jvmti := fun _ => .error 5

/-- A metadata facility mapping every identifier to method `run`, signature
`()V`, declaring class `LMain;`. -/
def okMainRun : Jvmti := fun _ => .ok ⟨"run", "()V", "LMain;"⟩

end FrameName

namespace LineNumberResolver

/-- Modelled from the spec: the Line-Number Resolver (spec section 4.7) is
not part of src/ — `frameName.cpp` is the only source file present and
contains no line-number code.  A `LineNumberTable` entry: a
`(start_offset, line_number)` pair; the table is ascending by
`start_offset`. -/
structure LineEntry where
  startOffset : Int
  lineNumber : Int
deriving DecidableEq, Repr

/-- Modelled from the spec: "Scan the table from its last entry backward;
return the `line_number` of the first entry whose `start_offset` ≤ current
offset."  `scanBack` walks a list front-to-back; the resolver applies it
to the reversed table.  "If no entry qualifies, the result is `-1`." -/
def scanBack (offset : Int) : List LineEntry → Int
  | [] => -1
  | e :: rest => if e.startOffset ≤ offset then e.lineNumber else scanBack offset rest

/-- Modelled from the spec: the Line-Number Resolver's table scan. -/
def lineNumberAt (table : List LineEntry) (offset : Int) : Int :=
  scanBack offset table.reverse

/-- Modelled from the spec: "On success, append `"_$[<file>:<line>]$"` to
the already-resolved method name." -/
def appendLineInfo (nm : String) (file : String) (line : Int) : String :=
  nm ++ "_$[" ++ file ++ ":" ++ toString line ++ "]$"

end LineNumberResolver

open FrameName LineNumberResolver

/-- C1 counterexample: with a metadata facility that fails with code 5,
the first naming call on identifier 7 *does* insert the diagnostic
`"[jvmtiError 5]"` into the NameCache, and a second call with the same
identifier is a cache hit that issues zero metadata queries — the failure
is memoized, contrary to the claim. -/
theorem c1_failure_inserted_and_not_requeried :
    nameRegular failJvmti5 zeroStyle [] 7 =
      some ⟨"[jvmtiError 5]", .scratch, 1, [(7, "[jvmtiError 5]")]⟩ ∧
    nameRegular failJvmti5 zeroStyle [(7, "[jvmtiError 5]")] 7 =
      some ⟨"[jvmtiError 5]", .cached, 0, [(7, "[jvmtiError 5]")]⟩ :=
  ⟨rfl, rfl⟩

/-- C1 amended: for every regular method frame whose metadata query fails
with code `e` and whose identifier is not yet cached, the resolver returns
the bracketed diagnostic `"[jvmtiError <e>]"` and *does* insert that
string into the NameCache, so a later call with the same identifier is a
cache hit that issues no metadata query and returns the same diagnostic —
failures are memoized exactly like successes. -/
theorem c1_failure_memoized (jvmti : Jvmti) (st : Style)
    (cache : List (Nat × String)) (m : Nat) (e : Nat)
    (herr : jvmti m = .error e) (hmiss : cacheLookup cache m = none) :
    nameRegular jvmti st cache m =
      some ⟨"[jvmtiError " ++ toString e ++ "]", .scratch, 1,
            (m, "[jvmtiError " ++ toString e ++ "]") :: cache⟩ ∧
    nameRegular jvmti st ((m, "[jvmtiError " ++ toString e ++ "]") :: cache) m =
      some ⟨"[jvmtiError " ++ toString e ++ "]", .cached, 0,
            (m, "[jvmtiError " ++ toString e ++ "]") :: cache⟩ := by
  constructor
  · simp [nameRegular, hmiss, javaMethodName, herr]
  · simp [nameRegular, cacheLookup, List.find?]

theorem c1_failure_memoized_witness :
    nameRegular failJvmti5 zeroStyle [] 7 =
      some ⟨"[jvmtiError " ++ toString 5 ++ "]", .scratch, 1,
            (7, "[jvmtiError " ++ toString 5 ++ "]") :: []⟩ ∧
    nameRegular failJvmti5 zeroStyle
        ((7, "[jvmtiError " ++ toString 5 ++ "]") :: []) 7 =
      some ⟨"[jvmtiError " ++ toString 5 ++ "]", .cached, 0,
            (7, "[jvmtiError " ++ toString 5 ++ "]") :: []⟩ :=
  c1_failure_memoized failJvmti5 zeroStyle [] 7 5 rfl rfl

/-- C2 counterexample: on a successful first resolution the `default:`
branch of `FrameName::name` executes `return newName`, and `newName` is
the pointer `javaMethodName` produced, which aliases the session's scratch
buffer `_buf` — not the `std::string` copy the cache stores.  The claim's
"the string returned after the successful resolution is the cache's stored
copy, remaining valid for the rest of the session" is therefore false: the
first call's result lives in the scratch buffer, which the next call
overwrites. -/
theorem c2_first_return_aliases_scratch_buffer :
    (nameRegular okMainRun dottedStyle [] 3).map (fun r => r.origin) =
      some Origin.scratch ∧
    Origin.scratch ≠ Origin.cached := by
  constructor
  · simp [nameRegular, cacheLookup, javaMethodName, okMainRun, javaClassName,
      appendDemangledJvmSignature, appendSig, processJvmName, appendMethodName,
      dims, dottedStyle, zeroStyle, nulChar]
  · decide

/-- C2 amended: for every method identifier whose metadata query succeeds
(composing to `s`), two successive naming calls issue exactly one metadata
query — only the first; the second call is a cache hit issuing no query
and returning content identical to the first result.  The second call's
string is the cache's stored copy, but the *first* call returns the
scratch buffer's string (the cache merely stores a copy at insertion). -/
theorem c2_single_query_idempotent (jvmti : Jvmti) (st : Style) (m : Nat)
    (s : String) (hok : javaMethodName jvmti st m = some s) :
    nameRegular jvmti st [] m = some ⟨s, .scratch, 1, [(m, s)]⟩ ∧
    nameRegular jvmti st [(m, s)] m = some ⟨s, .cached, 0, [(m, s)]⟩ := by
  constructor
  · simp [nameRegular, cacheLookup, hok]
  · simp [nameRegular, cacheLookup, List.find?]

theorem c2_single_query_idempotent_witness :
    nameRegular okMainRun dottedStyle [] 3 =
      some ⟨"Main.run", .scratch, 1, [(3, "Main.run")]⟩ ∧
    nameRegular okMainRun dottedStyle [(3, "Main.run")] 3 =
      some ⟨"Main.run", .cached, 0, [(3, "Main.run")]⟩ :=
  c2_single_query_idempotent okMainRun dottedStyle 3 "Main.run"
    (by simp [javaMethodName, okMainRun, javaClassName, appendDemangledJvmSignature,
      appendSig, processJvmName, appendMethodName, dims, dottedStyle, zeroStyle, nulChar])

/-- C3: the Escaping Formatter's `/` handling.  Under `DOTTED` it emits
`.` (so `java/lang/Object` formats as `java.lang.Object`) and with neither
flag it emits `/` verbatim — both as the claim states.  But under `SIMPLE`
the source's discard step is `memset(initial_out, NULL, initial_out - out)`
(frameName.cpp, line 180): the length `initial_out - out` is negative once
anything has been written (here 4, for `java`), so converted to `size_t`
it commands an out-of-bounds write of ~2^64 bytes, and the write cursor is
never rewound either; the simple name `Object` is never produced.  The
model yields `none` (undefined behavior) instead of the claimed
`Object`. -/
theorem c3_simple_discard_broken_dotted_ok :
    processJvmName simpleStyle "java/lang/Object".data [] = none ∧
    processJvmName dottedStyle "java/lang/Object".data [] =
      some ("java.lang.Object".data, []) ∧
    processJvmName zeroStyle "java/lang/Object".data [] =
      some ("java/lang/Object".data, []) :=
  ⟨by decide, by decide, by decide⟩

/-- C4: the Signature Decoder, in one pass, decodes
`(IJLjava/lang/String;)V` under signature+dotted styles to
`(int, long, java.lang.String) void` and `[[I` to `int[][]`; `[]` is
emitted once per pending array dimension after the element token and the
counter then resets (in `([IJ)V` the `J` decodes to plain `long` after the
preceding `int[]`), and `", "` is emitted after a parameter only when the
next character is not `')'`. -/
theorem c4_signature_decoding :
    appendDemangledJvmSignature "" "(IJLjava/lang/String;)V" sigDottedStyle =
      some "(int, long, java.lang.String) void" ∧
    appendDemangledJvmSignature "" "[[I" sigDottedStyle = some "int[][]" ∧
    appendDemangledJvmSignature "" "([IJ)V" sigDottedStyle =
      some "(int[], long) void" := by
  refine ⟨?_, ?_, ?_⟩ <;>
    simp [appendDemangledJvmSignature, appendSig, processJvmName, primitiveType,
      dims, sigDottedStyle, nulChar]

/-- C5: for every name copied by the Escaping Formatter (under any style
without the `SIMPLE` discard, whose brokenness C3 records), the output is
exactly the input up to the terminator with `,` emitted as `\,`, `\` as
`\\`, `(` as `\(`, `)` as `\)`, `/` per the package-separator rule, and
every other character verbatim; in particular `foo,bar` is emitted as
`foo\,bar`. -/
theorem c5_escaping :
    (∀ (st : Style) (nm acc : List Char), st.simple = false →
      processJvmName st nm acc =
        some (acc ++ (escapeSpec st.dotted nm).1, (escapeSpec st.dotted nm).2)) ∧
    processJvmName zeroStyle "foo,bar".data [] = some ("foo\\,bar".data, []) :=
  ⟨fun st nm acc hs => processJvmName_eq_escapeSpec st hs nm acc, by decide⟩

theorem c5_escaping_witness :
    processJvmName dottedStyle "a,b/c".data [] = some ("a\\,b.c".data, []) :=
  (c5_escaping.1 dottedStyle "a,b/c".data [] rfl).trans (by decide)

/-- C6: the Line-Number Resolver (modelled from the spec; not present in
src/) scans the table from its last entry backward and returns the
line number of the first entry whose start offset is ≤ the current offset,
or -1 if none qualifies: appending an entry at the end makes it the first
one consulted; for table [(0,10),(5,12),(9,15)] offset 7 resolves to 12,
offset 20 to 15, and an offset before the first entry to -1; on success
`"_$[<file>:<line>]$"` is appended to the resolved method name. -/
theorem c6_line_number_resolution :
    (∀ (table : List LineEntry) (e : LineEntry) (offset : Int),
      lineNumberAt (table ++ [e]) offset =
        if e.startOffset ≤ offset then e.lineNumber else lineNumberAt table offset) ∧
    lineNumberAt [⟨0, 10⟩, ⟨5, 12⟩, ⟨9, 15⟩] 7 = 12 ∧
    lineNumberAt [⟨0, 10⟩, ⟨5, 12⟩, ⟨9, 15⟩] 20 = 15 ∧
    lineNumberAt [⟨0, 10⟩, ⟨5, 12⟩, ⟨9, 15⟩] (-1) = -1 ∧
    appendLineInfo "Main.run" "Main.java" 12 = "Main.run_$[Main.java:12]$" := by
  refine ⟨?_, by decide, by decide, by decide, rfl⟩
  intro table e offset
  simp [lineNumberAt, List.reverse_append, scanBack]

/-- C7: the claim "every encoder truncates its output rather than writing
past the buffer's end" is false of the code: `appendStr` runs
`strncat(out, str, strlen(str))`, whose bound is the *source* length, so
the signature/name encoders append without any capacity check.  For every
capacity there is a descriptor (here `cap + 1` copies of `I`, decoding to
`"int"` each) whose formatted result is strictly longer than the
capacity — the source writes it into `_buf` regardless, overflowing the
buffer instead of truncating. -/
theorem c7_encoders_do_not_truncate :
    ∀ cap : Nat, ∃ sig out : List Char,
      appendSig zeroStyle sig 0 false [] = some out ∧ cap < out.length := by
  intro cap
  refine ⟨List.replicate (cap + 1) 'I',
          (List.replicate (cap + 1) (['i', 'n', 't'] : List Char)).flatten, ?_, ?_⟩
  · simpa using appendSig_replicate_int (cap + 1) []
  · rw [flatten_replicate_length]
    omega

/-- C8: the naming entry point never raises: a frame with an absent (null)
identifier yields the literal `"[unknown]"` with no state change and no
metadata query, and a descriptor character matching no grammar marker and
no recognized primitive code makes the decoder emit the fixed placeholder
`"WTF!"` and continue decoding the rest (e.g. `(QI)V` decodes to
`(WTF!, int) void`), never signalling an error. -/
theorem c8_degrades_never_raises :
    (∀ (jvmti : Jvmti) (dm : String → Option String) (cap : Nat) (st : Style)
       (threads : Int → Option String) (cache : List (Nat × String)),
      name jvmti dm cap st threads cache .unknown = some ("[unknown]", cache, 0)) ∧
    (∀ c : Char, c ∉ (['B', 'C', 'D', 'F', 'I', 'J', 'S', 'V', 'Z'] : List Char) →
      primitiveType c = "WTF!") ∧
    appendDemangledJvmSignature "" "(QI)V" sigDottedStyle = some "(WTF!, int) void" := by
  refine ⟨fun _ _ _ _ _ _ => rfl, ?_, ?_⟩
  · intro c h
    simp only [List.mem_cons, List.not_mem_nil, or_false, not_or] at h
    obtain ⟨h1, h2, h3, h4, h5, h6, h7, h8, h9⟩ := h
    simp [primitiveType, h1, h2, h3, h4, h5, h6, h7, h8, h9]
  · simp [appendDemangledJvmSignature, appendSig, processJvmName, primitiveType,
      dims, sigDottedStyle, nulChar]

theorem c8_degrades_never_raises_witness : primitiveType 'Q' = "WTF!" :=
  c8_degrades_never_raises.2.1 'Q' (by decide)

/-- C9: a `THREAD_MARKER` frame with thread id `t` formats as
`"[tid=<t>]"` when `t` is absent from the thread-name table and as
`"[<name> tid=<t>]"` when present with that display name. -/
theorem c9_thread_marker (jvmti : Jvmti) (dm : String → Option String) (cap : Nat)
    (st : Style) (threads : Int → Option String) (cache : List (Nat × String))
    (t : Int) (nm : String) :
    (threads t = none →
      name jvmti dm cap st threads cache (.threadFrame t) =
        some ("[tid=" ++ toString t ++ "]", cache, 0)) ∧
    (threads t = some nm →
      name jvmti dm cap st threads cache (.threadFrame t) =
        some ("[" ++ nm ++ " tid=" ++ toString t ++ "]", cache, 0)) := by
  constructor <;> intro h <;> simp [name, h]

theorem c9_thread_marker_witness :
    name failJvmti5 (fun _ => none) 0 zeroStyle (fun _ => none) []
      (.threadFrame 42) = some ("[tid=42]", [], 0) ∧
    name failJvmti5 (fun _ => none) 0 zeroStyle (fun _ => some "main") []
      (.threadFrame 42) = some ("[main tid=42]", [], 0) :=
  ⟨((c9_thread_marker failJvmti5 (fun _ => none) 0 zeroStyle (fun _ => none) []
      42 "main").1 rfl).trans (by rfl),
   ((c9_thread_marker failJvmti5 (fun _ => none) 0 zeroStyle (fun _ => some "main") []
      42 "main").2 rfl).trans (by rfl)⟩

/-- C10: when composing a resolved method name, the method-name portion
goes through the Escaping Formatter with style `0` (no flags): for every
configured session style — `SIMPLE` and/or `DOTTED` in any combination —
the method name is escaped with `escapeSpec false`, whose `/` rule is
"emit verbatim" (never `.`, never a prefix strip), while `, \ ( )` are
still backslash-escaped; concretely, under `DOTTED` the class part of
`Lx/y;` becomes `x.y` but a method named `do/it,now` is emitted as
`do/it\,now`. -/
theorem c10_method_name_escaped_with_no_flags :
    (∀ (simple dotted : Bool) (mn : String),
      javaMethodName (fun _ => .ok ⟨mn, "", "LObject;"⟩)
          ⟨simple, dotted, false, false⟩ 0 =
        some ("Object." ++ String.mk (escapeSpec false mn.data).1)) ∧
    javaMethodName (fun _ => .ok ⟨"do/it,now", "", "Lx/y;"⟩) dottedStyle 0 =
      some "x.y.do/it\\,now" := by
  constructor
  · intro simple dotted mn
    have hcls : javaClassName "LObject;" (⟨simple, dotted, false, false⟩ : Style) =
        some "Object" := by
      simp [javaClassName, appendDemangledJvmSignature, appendSig, processJvmName,
        dims, nulChar]
    have hmn : appendMethodName "Object." mn =
        some ("Object." ++ String.mk (escapeSpec false mn.data).1) := by
      simp only [appendMethodName, Option.map_eq_map, Option.map_eq_some']
      refine ⟨((escapeSpec false mn.data).1, (escapeSpec false mn.data).2), ?_, rfl⟩
      simpa using processJvmName_eq_escapeSpec ⟨false, false, false, false⟩ rfl mn.data []
    simp [javaMethodName, hcls, hmn]
  · simp [javaMethodName, javaClassName, appendDemangledJvmSignature, appendSig,
      processJvmName, appendMethodName, dims, nulChar, zeroStyle, dottedStyle]
